import Mathlib

/-!
Shallow embedding of `roboticstoolbox/backend/VPython/stl.py`.

The file defines two functions, `import_object_from_numpy_stl` and
`set_stl_origin`, which are glue over two external collaborators:
the numpy-stl mesh parser (`mesh.Mesh.from_file`) and the vpython
rendering toolkit (`vec`, `vertex`, `color`, `triangle`, `compound`),
plus pose accessors from this repository's `common_functions` module
(not part of the analysed sources).

Real-number coordinates are modelled as rationals (`ℚ`); the vpython
value types and the pose accessors are modelled from the spec's
description of the collaborators' contracts, as noted on each
definition.
-/

namespace VPythonStl

/-- A 3D vector with rational components, modelling vpython's vector type. -/
structure Vec3 where
  x : ℚ
  y : ℚ
  z : ℚ
deriving DecidableEq

/-- Componentwise addition, modelling vpython vector `+`. -/
def Vec3.add (a b : Vec3) : Vec3 := ⟨a.x + b.x, a.y + b.y, a.z + b.z⟩

/-- Componentwise subtraction, modelling vpython vector `-`. -/
def Vec3.sub (a b : Vec3) : Vec3 := ⟨a.x - b.x, a.y - b.y, a.z - b.z⟩

/-- vpython's `vec` constructor. -/
def vec (x y z : ℚ) : Vec3 := ⟨x, y, z⟩

/-- vpython's `vector` constructor (same as `vec`). -/
def vector (x y z : ℚ) : Vec3 := ⟨x, y, z⟩

/-- An RGB colour value, modelling vpython's color type. -/
structure Color where
  r : ℚ
  g : ℚ
  b : ℚ
deriving DecidableEq

namespace color

/-- vpython's `color.white`. -/
def white : Color := ⟨1, 1, 1⟩

end color

/-- Modelled from the spec: a RenderVertex, vpython's `vertex`
primitive — a position, a normal and a colour. -/
structure RenderVertex where
  pos : Vec3
  normal : Vec3
  color : Color
deriving DecidableEq

/-- vpython's `vertex(pos=..., normal=..., color=...)` constructor. -/
def vertex (pos normal : Vec3) (c : Color) : RenderVertex :=
  ⟨pos, normal, c⟩

/-- Modelled from the spec: a RenderTriangle, vpython's `triangle`
primitive — bound to a scene (canvas) and carrying its vertices. -/
structure RenderTriangle where
  canvas : Nat
  vs : List RenderVertex
deriving DecidableEq

/-- vpython's `triangle(canvas=..., vs=...)` constructor. -/
def triangle (canvas : Nat) (vs : List RenderVertex) : RenderTriangle :=
  ⟨canvas, vs⟩

/-- One face of the parsed RawMesh: three vertex positions
(`the_mesh.vectors[face][0..2]`) and the face normal
(`the_mesh.normals[face]`, whose three components are read as
`normal0`, `normal1`, `normal2` in the source). numpy-stl exposes
`vectors` and `normals` as parallel arrays of equal length; they are
modelled as a single list of faces. -/
structure Face where
  point0 : Vec3
  point1 : Vec3
  point2 : Vec3
  normal : Vec3
deriving DecidableEq

/-- Modelled from the spec: the RawMesh produced by the external
mesh-parsing collaborator — an ordered sequence of faces. -/
structure RawMesh where
  faces : List Face
deriving DecidableEq

/-- A parse failure reported by the mesh-parsing collaborator
(file missing, unreadable, or not a valid STL structure). -/
def ParseError : Type := String

instance : DecidableEq ParseError := fun a b =>
  (inferInstance : DecidableEq String) a b

/-- Modelled from the spec: an SE3 pose — a position and three
orthonormal axis vectors. -/
structure Pose where
  pos : Vec3
  xAxis : Vec3
  yAxis : Vec3
  zAxis : Vec3
deriving DecidableEq

/-- Modelled from the spec: `get_pose_pos` from the repository's
`common_functions` module (not among the analysed sources) returns the
pose's position. -/
def get_pose_pos (p : Pose) : Vec3 := p.pos

/-- Modelled from the spec: `get_pose_x_vec` returns the pose's x-axis
vector. -/
def get_pose_x_vec (p : Pose) : Vec3 := p.xAxis

/-- Modelled from the spec: `get_pose_y_vec` returns the pose's y-axis
vector. -/
def get_pose_y_vec (p : Pose) : Vec3 := p.yAxis

/-- Modelled from the spec: `get_pose_z_vec` returns the pose's z-axis
vector. -/
def get_pose_z_vec (p : Pose) : Vec3 := p.zAxis

/-- Modelled from the spec: `x_axis_vector` from the repository's
`common_functions` module — the coordinate system's canonical x-axis. -/
def x_axis_vector : Vec3 := vec 1 0 0

/-- The `meshdata` argument of `import_object_from_numpy_stl`:
`meshdata[0]` is a file path, `meshdata[1]` the scale 3-vector,
`meshdata[2]` the origin SE3 pose. The file path only feeds the
external parser, so it is modelled by the parser's outcome on it
(`parsed`, standing for `mesh.Mesh.from_file(meshdata[0])`). -/
structure MeshData where
  parsed : Except ParseError RawMesh
  scale : Vec3
  origin : Pose

/-- The attributes a vpython grouped object (`compound`) carries:
position, origin, orientation axes, bounding extents, a visibility
flag, the owning canvas, and — because vpython stores unrecognised
constructor keywords as plain user attributes — an optional stray
`vector=` attribute. -/
structure Attrs where
  pos : Vec3
  origin : Vec3
  axis : Vec3
  up : Vec3
  length : ℚ
  height : ℚ
  width : ℚ
  visible : Bool
  canvas : Nat
  vectorAttr : Option Vec3
deriving DecidableEq

/-- A scene object: either a render triangle or a grouped compound of
scene objects. -/
inductive VObj : Type where
  | tri : RenderTriangle → VObj
  | comp : List VObj → Attrs → VObj

/-- The constituents of a compound (empty for a bare triangle). -/
def VObj.objs : VObj → List VObj
  | .tri _ => []
  | .comp objs _ => objs

/-- The `pos` attribute (vpython triangles carry no `pos`; reading it
on one is modelled as the zero vector, and no embedded code does so). -/
def VObj.pos : VObj → Vec3
  | .tri _ => vec 0 0 0
  | .comp _ a => a.pos

/-- The `origin` attribute of a compound. -/
def VObj.origin : VObj → Vec3
  | .tri _ => vec 0 0 0
  | .comp _ a => a.origin

/-- The `axis` attribute of a compound. -/
def VObj.axis : VObj → Vec3
  | .tri _ => x_axis_vector
  | .comp _ a => a.axis

/-- The `up` attribute of a compound. -/
def VObj.up : VObj → Vec3
  | .tri _ => vec 0 1 0
  | .comp _ a => a.up

/-- The `length` attribute of a compound. -/
def VObj.length : VObj → ℚ
  | .tri _ => 0
  | .comp _ a => a.length

/-- The `height` attribute of a compound. -/
def VObj.height : VObj → ℚ
  | .tri _ => 0
  | .comp _ a => a.height

/-- The `width` attribute of a compound. -/
def VObj.width : VObj → ℚ
  | .tri _ => 0
  | .comp _ a => a.width

/-- The `visible` attribute. -/
def VObj.visible : VObj → Bool
  | .tri _ => true
  | .comp _ a => a.visible

/-- Assignment to the `pos` attribute of a compound. -/
def VObj.withPos : VObj → Vec3 → VObj
  | .tri t, _ => .tri t
  | .comp objs a, p => .comp objs { a with pos := p }

/-- Assignment to the `visible` attribute of a compound. -/
def VObj.withVisible : VObj → Bool → VObj
  | .tri t, _ => .tri t
  | .comp objs a, v => .comp objs { a with visible := v }

/-- Assignment to the `length` attribute of a compound. -/
def VObj.withLength : VObj → ℚ → VObj
  | .tri t, _ => .tri t
  | .comp objs a, l => .comp objs { a with length := l }

/-- Assignment to the `height` attribute of a compound. -/
def VObj.withHeight : VObj → ℚ → VObj
  | .tri t, _ => .tri t
  | .comp objs a, h => .comp objs { a with height := h }

/-- Assignment to the `width` attribute of a compound. -/
def VObj.withWidth : VObj → ℚ → VObj
  | .tri t, _ => .tri t
  | .comp objs a, w => .comp objs { a with width := w }

/-- The larger of two rationals (kernel-computable comparison). -/
def qmax (a b : ℚ) : ℚ := if a.blt b then b else a

/-- The smaller of two rationals (kernel-computable comparison). -/
def qmin (a b : ℚ) : ℚ := if a.blt b then a else b

/-- The maximum of a list of rationals (0 for the empty list, making a
0-face compound's extents degenerate but defined). -/
def qListMax : List ℚ → ℚ
  | [] => 0
  | q :: qs => qs.foldl qmax q

/-- The minimum of a list of rationals (0 for the empty list). -/
def qListMin : List ℚ → ℚ
  | [] => 0
  | q :: qs => qs.foldl qmin q

/-- The vertex positions of the immediate triangle constituents of a
compound. -/
def trianglePoints (objs : List VObj) : List Vec3 :=
  objs.flatMap fun o =>
    match o with
    | .tri t => t.vs.map RenderVertex.pos
    | .comp _ _ => []

/-- Extent of a coordinate selection over the constituents' vertex
positions: max minus min. -/
def extentAlong (f : Vec3 → ℚ) (objs : List VObj) : ℚ :=
  qListMax ((trianglePoints objs).map f) - qListMin ((trianglePoints objs).map f)

/-- vpython's default `up` direction. -/
def compound_default_up : Vec3 := vec 0 1 0

/-- Modelled from the spec: the rendering collaborator's `compound`
constructor. It groups the given objects; the grouping computes
bounding extents of its constituents as a side effect (the spec leaves
the algorithm to the collaborator; the model uses the axis-aligned
bounding box of the triangle constituents' vertex positions). The
`origin` keyword names the point of the constituents' coordinate
system that the compound's `pos` tracks; at creation the compound does
not move the geometry, so `pos` starts at `origin`. `axis` and `up`
are optional keywords (vpython defaults: the canonical x-axis and
(0,1,0)); a keyword vpython does not recognise — such as the `vector=`
keyword `set_stl_origin` passes — is stored as a plain user attribute
and does not affect the orientation. The compound starts visible. -/
def compound (objs : List VObj) (origin : Vec3) (canvas : Nat)
    (axis up : Vec3) (vectorAttr : Option Vec3) : VObj :=
  .comp objs
    { pos := origin
      origin := origin
      axis := axis
      up := up
      length := extentAlong Vec3.x objs
      height := extentAlong Vec3.y objs
      width := extentAlong Vec3.z objs
      visible := true
      canvas := canvas
      vectorAttr := vectorAttr }

/-- The loop body of `import_object_from_numpy_stl` for one face:
read the three points and the face normal, build three vertices
sharing that normal and the fixed white colour, and build one triangle
from them on `scene`. -/
def face_to_triangle (scene : Nat) (face : Face) : VObj :=
  let point0 := face.point0
  let point1 := face.point1
  let point2 := face.point2
  let normal := vec face.normal.x face.normal.y face.normal.z
  let vertex0 := vertex (vec point0.x point0.y point0.z) normal color.white
  let vertex1 := vertex (vec point1.x point1.y point1.z) normal color.white
  let vertex2 := vertex (vec point2.x point2.y point2.z) normal color.white
  .tri (triangle scene [vertex0, vertex1, vertex2])

/-- The triangle list built by the face loop, in face order. -/
def mesh_triangles (scene : Nat) (the_mesh : RawMesh) : List VObj :=
  the_mesh.faces.map (face_to_triangle scene)

/-- The grouped object `compound(triangles, origin=origin_pos,
canvas=scene, axis=origin_x, up=origin_y)` built by
`import_object_from_numpy_stl` before the three scale assignments. -/
def grouped_mesh (origin : Pose) (scene : Nat) (the_mesh : RawMesh) : VObj :=
  compound (mesh_triangles scene the_mesh) (get_pose_pos origin) scene
    (get_pose_x_vec origin) (get_pose_y_vec origin) none

/-- Embedding of `import_object_from_numpy_stl(meshdata, scene)`.
The external parse (`mesh.Mesh.from_file`) comes in through
`meshdata.parsed`; a parser failure propagates (the source installs no
handler, so the exception leaves the function before any triangle or
compound is created). On success the face loop builds one triangle per
face, the triangles are grouped, and the group's `length`, `height`
and `width` are multiplied in place by `scale[0]`, `scale[1]`,
`scale[2]`. -/
def import_object_from_numpy_stl (meshdata : MeshData) (scene : Nat) :
    Except ParseError VObj :=
  let scale := meshdata.scale
  let origin := meshdata.origin
  match meshdata.parsed with
  | .error e => .error e
  | .ok the_mesh =>
      let visual_mesh := grouped_mesh origin scene the_mesh
      let visual_mesh := visual_mesh.withLength (visual_mesh.length * scale.x)
      let visual_mesh := visual_mesh.withHeight (visual_mesh.height * scale.y)
      let visual_mesh := visual_mesh.withWidth (visual_mesh.width * scale.z)
      .ok visual_mesh

/-- Embedding of `set_stl_origin(stl_obj, current_obj_origin,
required_obj_origin, scene)`: translate `stl_obj.pos` by
`required_obj_origin - current_obj_origin`, set it invisible, and wrap
it in `compound([stl_obj], origin=vector(0,0,0), vector=x_axis_vector,
canvas=scene)`. `vector=` is not a keyword vpython's `compound`
recognises (the orientation keyword is `axis=`), so it lands as a
stray user attribute and the new compound's axis takes the
collaborator's default — which is the canonical x-axis. -/
def set_stl_origin (stl_obj : VObj)
    (current_obj_origin required_obj_origin : Vec3) (scene : Nat) : VObj :=
  let movement := required_obj_origin.sub current_obj_origin
  let stl_obj := stl_obj.withPos (stl_obj.pos.add movement)
  let stl_obj := stl_obj.withVisible false
  compound [stl_obj] (vector 0 0 0) scene x_axis_vector compound_default_up
    (some x_axis_vector)

/-- The effective (world) position reached by following the first
constituent down a chain of compounds: each level contributes its
`pos - origin` offset (a compound renders its constituents translated
so that the `origin` point of their coordinate system sits at `pos`).
For the singleton wrappers `set_stl_origin` builds, this is the final
world position of the innermost object. -/
def VObj.effPos : VObj → Vec3
  | .tri _ => vec 0 0 0
  | .comp [] a => a.pos.sub a.origin
  | .comp (o :: _) a => (a.pos.sub a.origin).add o.effPos

/-! Concrete inputs for witnesses: the spec's scenario mesh — two
triangular faces forming a unit square — with an identity pose. -/

/-- Identity pose: position at the origin, canonical axes. -/
def pose0 : Pose :=
  { pos := vec 0 0 0, xAxis := vec 1 0 0, yAxis := vec 0 1 0, zAxis := vec 0 0 1 }

/-- Two faces forming a unit square in the z = 0 plane. -/
def m0 : RawMesh :=
  ⟨[⟨vec 0 0 0, vec 1 0 0, vec 1 1 0, vec 0 0 1⟩,
    ⟨vec 0 0 0, vec 1 1 0, vec 0 1 0, vec 0 0 1⟩]⟩

/-- The square mesh with unit scale and identity pose. -/
def md0 : MeshData := { parsed := .ok m0, scale := vec 1 1 1, origin := pose0 }

/-- The square mesh with scale (2,1,1) and identity pose. -/
def mdS : MeshData := { parsed := .ok m0, scale := vec 2 1 1, origin := pose0 }

/-- A mesh descriptor whose file fails to parse. -/
def mdErr : MeshData :=
  { parsed := .error "file missing or not a valid STL", scale := vec 1 1 1, origin := pose0 }

/-- The identity pose with a different z-axis vector. -/
def poseZ : Pose := { pose0 with zAxis := vec 5 7 9 }

/-- `md0` with the pose's z-axis replaced. -/
def mdZ : MeshData := { md0 with origin := poseZ }

/-- C1: for a parsed mesh with F faces the import produces exactly F
RenderTriangle instances; the i-th is built from the i-th face's three
vertex positions, untransformed and in input order, each vertex
carrying the single face normal and the fixed white colour. -/
theorem import_builds_one_triangle_per_face (md : MeshData) (scene : Nat)
    (m : RawMesh) (h : md.parsed = .ok m) :
    ∃ v, import_object_from_numpy_stl md scene = .ok v ∧
      v.objs.length = m.faces.length ∧
      ∀ (i : Nat) (f : Face), m.faces[i]? = some f →
        v.objs[i]? = some (VObj.tri (triangle scene
          [vertex f.point0 f.normal color.white,
           vertex f.point1 f.normal color.white,
           vertex f.point2 f.normal color.white])) := by
  simp only [import_object_from_numpy_stl, h]
  refine ⟨_, rfl, ?_, ?_⟩
  · simp [grouped_mesh, compound, mesh_triangles, VObj.withLength, VObj.withHeight,
      VObj.withWidth, VObj.objs]
  · intro i f hf
    simp [grouped_mesh, compound, mesh_triangles, VObj.withLength, VObj.withHeight,
      VObj.withWidth, VObj.objs, hf]
    rfl

/-- C1 witness: the two-face unit-square mesh yields exactly 2
triangles with the stated structure. -/
theorem import_builds_one_triangle_per_face_witness :
    (∃ v, import_object_from_numpy_stl md0 0 = .ok v ∧
      v.objs.length = m0.faces.length ∧
      ∀ (i : Nat) (f : Face), m0.faces[i]? = some f →
        v.objs[i]? = some (VObj.tri (triangle 0
          [vertex f.point0 f.normal color.white,
           vertex f.point1 f.normal color.white,
           vertex f.point2 f.normal color.white]))) ∧
    m0.faces.length = 2 :=
  ⟨import_builds_one_triangle_per_face md0 0 m0 rfl, rfl⟩

/-- C2: scaling is applied strictly after grouping and axis-locally:
for any parsed mesh, the returned object's length, height and width
are the pre-scale grouped object's length, height and width multiplied
by scale[0], scale[1], scale[2] respectively. -/
theorem import_scales_after_grouping (md : MeshData) (scene : Nat)
    (m : RawMesh) (h : md.parsed = .ok m) :
    ∃ v, import_object_from_numpy_stl md scene = .ok v ∧
      v.length = (grouped_mesh md.origin scene m).length * md.scale.x ∧
      v.height = (grouped_mesh md.origin scene m).height * md.scale.y ∧
      v.width = (grouped_mesh md.origin scene m).width * md.scale.z := by
  simp only [import_object_from_numpy_stl, h]
  refine ⟨_, rfl, ?_, ?_, ?_⟩ <;>
    simp [grouped_mesh, compound, VObj.withLength, VObj.withHeight, VObj.withWidth,
      VObj.length, VObj.height, VObj.width]

/-- C2 witness: on the unit-square mesh with scale (2,1,1) the scaling
relation holds, the pre-scale grouped length is 1, and the scale's
first component is 2 (so the length doubles). -/
theorem import_scales_after_grouping_witness :
    (∃ v, import_object_from_numpy_stl mdS 0 = .ok v ∧
      v.length = (grouped_mesh mdS.origin 0 m0).length * mdS.scale.x ∧
      v.height = (grouped_mesh mdS.origin 0 m0).height * mdS.scale.y ∧
      v.width = (grouped_mesh mdS.origin 0 m0).width * mdS.scale.z) ∧
    (grouped_mesh mdS.origin 0 m0).length = 1 ∧ mdS.scale.x = 2 :=
  ⟨import_scales_after_grouping mdS 0 m0 rfl, by
    have h1 : qListMax ((trianglePoints (mesh_triangles 0 m0)).map Vec3.x) = 1 := by
      decide
    have h2 : qListMin ((trianglePoints (mesh_triangles 0 m0)).map Vec3.x) = 0 := by
      decide
    simp only [grouped_mesh, compound, VObj.length, extentAlong, h1, h2]
    norm_num, rfl⟩

/-- C3: `set_stl_origin` translates the child object's position by
exactly `required_obj_origin - current_obj_origin`: the nested
object's position is its old position plus that delta. -/
theorem set_stl_origin_translates_child (objs : List VObj) (a : Attrs)
    (current_obj_origin required_obj_origin : Vec3) (scene : Nat) :
    ∃ child,
      (set_stl_origin (.comp objs a) current_obj_origin required_obj_origin
        scene).objs = [child] ∧
      child.pos = (VObj.comp objs a).pos.add
        (required_obj_origin.sub current_obj_origin) :=
  ⟨_, rfl, rfl⟩

/-- C4: the object returned by `set_stl_origin` has its own origin at
(0,0,0), its primary axis equal to the canonical x-axis (the stray
`vector=` keyword leaves the collaborator's default axis in force,
which coincides with `x_axis_vector`), and it groups exactly the
single translated input object. -/
theorem set_stl_origin_result_frame (stl_obj : VObj)
    (current_obj_origin required_obj_origin : Vec3) (scene : Nat) :
    (set_stl_origin stl_obj current_obj_origin required_obj_origin
        scene).origin = vector 0 0 0 ∧
    (set_stl_origin stl_obj current_obj_origin required_obj_origin
        scene).axis = x_axis_vector ∧
    (set_stl_origin stl_obj current_obj_origin required_obj_origin
        scene).objs =
      [(stl_obj.withPos (stl_obj.pos.add
          (required_obj_origin.sub current_obj_origin))).withVisible false] :=
  ⟨rfl, rfl, rfl⟩

/-- C5: relocation composes additively — relocating A→B then B→C
leaves the innermost object at the same effective final position as
relocating A→C once. -/
theorem set_stl_origin_compose (objs : List VObj) (a : Attrs)
    (A B C : Vec3) (s₁ s₂ s₃ : Nat) :
    (set_stl_origin (set_stl_origin (.comp objs a) A B s₁) B C s₂).effPos
      = (set_stl_origin (.comp objs a) A C s₃).effPos := by
  cases objs with
  | nil =>
      simp only [set_stl_origin, compound, VObj.withPos, VObj.withVisible, VObj.pos,
        VObj.effPos, Vec3.add, Vec3.sub, vector, Vec3.mk.injEq]
      refine ⟨?_, ?_, ?_⟩ <;> ring
  | cons o os =>
      simp only [set_stl_origin, compound, VObj.withPos, VObj.withVisible, VObj.pos,
        VObj.effPos, Vec3.add, Vec3.sub, vector, Vec3.mk.injEq]
      refine ⟨?_, ?_, ?_⟩ <;> ring

/-- C6: a parsed mesh with zero faces does not fail: the import
returns a grouped object with an empty constituent list and defined
but degenerate (zero) extents. -/
theorem import_empty_mesh (scale : Vec3) (origin : Pose) (scene : Nat) :
    ∃ v, import_object_from_numpy_stl ⟨.ok ⟨[]⟩, scale, origin⟩ scene = .ok v ∧
      v.objs = [] ∧ v.length = 0 ∧ v.height = 0 ∧ v.width = 0 := by
  refine ⟨_, rfl, rfl, ?_, ?_, ?_⟩ <;>
    simp [grouped_mesh, compound, mesh_triangles, extentAlong, trianglePoints,
      qListMax, qListMin, VObj.withLength, VObj.withHeight, VObj.withWidth,
      VObj.length, VObj.height, VObj.width]

/-- C7: the import groups the full ordered triangle sequence into one
object whose origin is the pose's position, whose primary axis is the
pose's x-axis and whose up axis is the pose's y-axis. -/
theorem import_pose_frame (md : MeshData) (scene : Nat)
    (m : RawMesh) (h : md.parsed = .ok m) :
    ∃ v, import_object_from_numpy_stl md scene = .ok v ∧
      v.objs = mesh_triangles scene m ∧
      v.origin = get_pose_pos md.origin ∧
      v.axis = get_pose_x_vec md.origin ∧
      v.up = get_pose_y_vec md.origin := by
  simp only [import_object_from_numpy_stl, h]
  refine ⟨_, rfl, ?_, ?_, ?_, ?_⟩ <;>
    simp [grouped_mesh, compound, VObj.withLength, VObj.withHeight, VObj.withWidth,
      VObj.objs, VObj.origin, VObj.axis, VObj.up]

/-- C7 witness: the pose-frame facts instantiated on the unit-square
mesh with the identity pose. -/
theorem import_pose_frame_witness :
    ∃ v, import_object_from_numpy_stl md0 0 = .ok v ∧
      v.objs = mesh_triangles 0 m0 ∧
      v.origin = get_pose_pos md0.origin ∧
      v.axis = get_pose_x_vec md0.origin ∧
      v.up = get_pose_y_vec md0.origin :=
  import_pose_frame md0 0 m0 rfl

/-- C8: a parse failure propagates verbatim: the import returns
exactly the parser's error and constructs nothing. -/
theorem import_propagates_parse_error (md : MeshData) (scene : Nat)
    (e : ParseError) (h : md.parsed = .error e) :
    import_object_from_numpy_stl md scene = .error e := by
  simp only [import_object_from_numpy_stl, h]

/-- C8 witness: the failing descriptor's error comes back verbatim. -/
theorem import_propagates_parse_error_witness :
    import_object_from_numpy_stl mdErr 0 =
      .error "file missing or not a valid STL" :=
  import_propagates_parse_error mdErr 0 "file missing or not a valid STL" rfl

/-- C9: `set_stl_origin` marks the original object invisible and
retains it nested inside the returned group; apart from its position
(translated by the delta) and its visibility flag every other
attribute — constituents, origin, axes, extents, canvas, stray
attributes — is unchanged. -/
theorem set_stl_origin_preserves_child (objs : List VObj) (a : Attrs)
    (current_obj_origin required_obj_origin : Vec3) (scene : Nat) :
    ∃ a₂,
      (set_stl_origin (.comp objs a) current_obj_origin required_obj_origin
        scene).objs = [.comp objs a₂] ∧
      a₂.visible = false ∧
      a₂.pos = a.pos.add (required_obj_origin.sub current_obj_origin) ∧
      a₂.origin = a.origin ∧ a₂.axis = a.axis ∧ a₂.up = a.up ∧
      a₂.length = a.length ∧ a₂.height = a.height ∧ a₂.width = a.width ∧
      a₂.canvas = a.canvas ∧ a₂.vectorAttr = a.vectorAttr :=
  ⟨_, rfl, rfl, rfl, rfl, rfl, rfl, rfl, rfl, rfl, rfl, rfl⟩

/-- C10: the import's result does not depend on the pose's z-axis:
two descriptors that agree on parse outcome, scale, pose position,
pose x-axis and pose y-axis produce identical output, whatever their
z-axes. -/
theorem import_ignores_pose_z (md₁ md₂ : MeshData) (scene : Nat)
    (hparsed : md₁.parsed = md₂.parsed) (hscale : md₁.scale = md₂.scale)
    (hpos : md₁.origin.pos = md₂.origin.pos)
    (hx : md₁.origin.xAxis = md₂.origin.xAxis)
    (hy : md₁.origin.yAxis = md₂.origin.yAxis) :
    import_object_from_numpy_stl md₁ scene =
      import_object_from_numpy_stl md₂ scene := by
  simp only [import_object_from_numpy_stl, grouped_mesh, get_pose_pos,
    get_pose_x_vec, get_pose_y_vec, hparsed, hscale, hpos, hx, hy]

/-- C10 witness: two descriptors differing only in the pose's z-axis
(and they do differ there) give identical imports. -/
theorem import_ignores_pose_z_witness :
    import_object_from_numpy_stl md0 0 = import_object_from_numpy_stl mdZ 0 ∧
    md0.origin.zAxis ≠ mdZ.origin.zAxis :=
  ⟨import_ignores_pose_z md0 mdZ 0 rfl rfl rfl rfl rfl, by decide⟩

end VPythonStl
